import Mathlib

/-!
Shallow embedding of the data-normalization, filtering and aggregation
pipeline of `src/app.py` (a pandas/streamlit event-registration dashboard),
together with proofs of the specification's claims about it.

A dataframe is modelled as a `List` of records; each column that can hold a
pandas missing value (`NaN`/`NaT`) is an `Option` field.  The two external
library parsers (`pd.to_datetime` with `errors='coerce', utc=True` and
`pd.to_numeric` with `errors='coerce'`) are not code of this repository, so
they are abstracted as parameters (`Parsers`): a parser returns `none`
exactly where pandas would produce a missing value.
-/

namespace EventDashboard

/-- A timezone-normalized datetime value as produced by
`pd.to_datetime(..., utc=True)`: a calendar day (as a day number) plus a
time-of-day component.  `.dt.date` truncates the time-of-day, keeping `day`. -/
structure Timestamp where
  day : Int
  timeOfDay : Nat
deriving DecidableEq, Repr

/-- One row of the raw uploaded table, restricted to the columns the
dashboard reads.  Every cell can be missing (`NaN`), hence `Option`. -/
structure RawRecord where
  createdAt : Option String
  yearOfStudy : Option String
  collegeName : Option String
  gender : Option String
  degree : Option String
  firstName : Option String
  registeredEvents : Option String
  teams : Option String
deriving DecidableEq, Repr

/-- The two pandas parsers used by `preprocess_data`, abstracted: `toDatetime`
models `pd.to_datetime(x, errors='coerce', utc=True)` on a single cell and
`toNumeric` models `pd.to_numeric(x, errors='coerce')`; `none` is pandas
`NaT`/`NaN`. A missing input cell always parses to missing, which is modelled
at the call sites via `Option.bind`. -/
structure Parsers where
  toDatetime : String → Option Timestamp
  toNumeric : String → Option Rat

/-- One row of the dataframe from `preprocess_data` onwards.  The derived
columns (`Created At` after datetime coercion, `Registration Date`,
`Year of Study Cleaned` first as a number and then as a string) are `Option`
fields so that the non-nullness claimed by the spec is a provable property,
not a typing artifact.  The original columns are carried through unchanged. -/
structure NormRecord where
  createdAt : Option Timestamp
  yearOfStudy : Option String
  registrationDate : Option Int
  yearNum : Option Rat
  yearLabel : Option String
  collegeName : Option String
  gender : Option String
  degree : Option String
  firstName : Option String
  registeredEvents : Option String
  teams : Option String
deriving DecidableEq, Repr

/-- Truncation of a rational toward zero, as numpy's `astype(int)` does to a
float-valued column. -/
def ratTrunc (q : Rat) : Int :=
  q.num.tdiv q.den

/-- Line 16 of `app.py`: `df['Created At'] = pd.to_datetime(df['Created At'],
errors='coerce', utc=True)` applied to one row; all derived columns that do
not exist yet are missing. -/
def parseCreatedRow (P : Parsers) (r : RawRecord) : NormRecord :=
  { createdAt := r.createdAt.bind P.toDatetime
    yearOfStudy := r.yearOfStudy
    registrationDate := none
    yearNum := none
    yearLabel := none
    collegeName := r.collegeName
    gender := r.gender
    degree := r.degree
    firstName := r.firstName
    registeredEvents := r.registeredEvents
    teams := r.teams }

/-- Line 19 of `app.py`: `df['Registration Date'] = df['Created At'].dt.date`
applied to one row. -/
def deriveDateRow (r : NormRecord) : NormRecord :=
  { r with registrationDate := r.createdAt.map Timestamp.day }

/-- Line 20 of `app.py`: `df['Year of Study Cleaned'] =
pd.to_numeric(df['Year of Study'], errors='coerce')` applied to one row
(the numeric stage of the column, before it is overwritten with strings). -/
def parseYearRow (P : Parsers) (r : NormRecord) : NormRecord :=
  { r with yearNum := r.yearOfStudy.bind P.toNumeric }

/-- Line 22 of `app.py`: `df['Year of Study Cleaned'] =
df['Year of Study Cleaned'].astype(int).astype(str)` applied to one row. -/
def labelYearRow (r : NormRecord) : NormRecord :=
  { r with yearLabel := r.yearNum.map (fun q => toString (ratTrunc q)) }

/-- Lines 14-23 of `app.py` (`preprocess_data`): coerce `Created At` to
datetimes and drop rows where that fails (`dropna`), derive
`Registration Date`, coerce `Year of Study` to numbers and drop rows where
that fails, then format the cleaned year as a string.  The steps appear in
the source's order. -/
def preprocess_data (P : Parsers) (df : List RawRecord) : List NormRecord :=
  let s1 := df.map (parseCreatedRow P)
  let s2 := s1.filter (fun r => r.createdAt.isSome)
  let s3 := s2.map deriveDateRow
  let s4 := s3.map (parseYearRow P)
  let s5 := s4.filter (fun r => r.yearNum.isSome)
  s5.map labelYearRow

/-- A raw row survives `preprocess_data` iff both its timestamp and its
year-of-study parse. -/
def fullyParses (P : Parsers) (r : RawRecord) : Bool :=
  (r.createdAt.bind P.toDatetime).isSome && (r.yearOfStudy.bind P.toNumeric).isSome

/-- The normalized record that `preprocess_data` produces from a raw row that
fully parses. -/
def normOf (P : Parsers) (r : RawRecord) : NormRecord :=
  { createdAt := r.createdAt.bind P.toDatetime
    yearOfStudy := r.yearOfStudy
    registrationDate := (r.createdAt.bind P.toDatetime).map Timestamp.day
    yearNum := r.yearOfStudy.bind P.toNumeric
    yearLabel := (r.yearOfStudy.bind P.toNumeric).map (fun q => toString (ratTrunc q))
    collegeName := r.collegeName
    gender := r.gender
    degree := r.degree
    firstName := r.firstName
    registeredEvents := r.registeredEvents
    teams := r.teams }

/-- A Filter Selection: the colleges and year labels chosen in the sidebar
multiselects and the two endpoints of the chosen date range (as unpacked on
line 66 of `app.py`). -/
structure FilterSel where
  colleges : List String
  years : List String
  startDate : Int
  endDate : Int
deriving DecidableEq, Repr

/-- Pandas `series.isin(xs)` on one cell: a missing value is in no selection. -/
def isinOpt (xs : List String) : Option String → Bool
  | some v => xs.contains v
  | none => false

/-- Pandas elementwise `date >= s` on one cell (missing compares false). -/
def dateGe (d : Option Int) (s : Int) : Bool :=
  match d with
  | some d => s ≤ d
  | none => false

/-- Pandas elementwise `date <= e` on one cell (missing compares false). -/
def dateLe (d : Option Int) (e : Int) : Bool :=
  match d with
  | some d => d ≤ e
  | none => false

/-- Lines 67-72 of `app.py`: the conjunction of the college membership, year
membership and inclusive date-range predicates, as a boolean mask over the
normalized dataframe. -/
def df_filtered (df : List NormRecord) (sel : FilterSel) : List NormRecord :=
  df.filter (fun r =>
    isinOpt sel.colleges r.collegeName &&
    isinOpt sel.years r.yearLabel &&
    dateGe r.registrationDate sel.startDate &&
    dateLe r.registrationDate sel.endDate)

/-- Outcome of one run of the script's ingestion-and-filter prefix
(lines 42-76 of `app.py`): the three user-visible non-crash reports of the
spec's error taxonomy (`ParseError`, `EmptyInputError`, `NoMatchingDataError`)
and the normal path that renders the dashboard over the filtered rows.
`parseError` and `emptyInput` are produced with `st.error`, `noMatchingData`
with `st.warning`; all three `st.stop()` instead of raising. -/
inductive Outcome
  | emptyInput (msg : String)
  | parseError (msg : String)
  | noMatchingData (msg : String)
  | dashboard (rows : List NormRecord)
deriving DecidableEq, Repr

/-- The constant part of the message on line 54 of `app.py`; the caught
exception's text is appended to it. -/
def parseErrorMessageStem : String :=
  "⚠️ Could not read the CSV file. Try re-saving it as UTF-8 format.\n\nError details: "

/-- The message on line 50 of `app.py`. -/
def emptyInputMessage : String :=
  "The uploaded CSV file is empty or could not be read."

/-- The message on line 75 of `app.py`. -/
def noMatchingDataMessage : String :=
  "No data matches the current filter settings."

/-- Lines 42-76 of `app.py`: `pd.read_csv` either raises (modelled as
`Except.error` carrying the exception text) or yields a raw table; an empty
table is reported via `st.error` and `st.stop`; otherwise the table is
preprocessed, filtered with the sidebar selection, and an empty filter result
is reported via `st.warning` and `st.stop`. -/
def runPipeline (parsed : Except String (List RawRecord)) (P : Parsers)
    (sel : FilterSel) : Outcome :=
  match parsed with
  | .error e => .parseError (parseErrorMessageStem ++ e)
  | .ok dfRaw =>
    if dfRaw.isEmpty then .emptyInput emptyInputMessage
    else
      let df := preprocess_data P dfRaw
      let dfF := df_filtered df sel
      if dfF.isEmpty then .noMatchingData noMatchingDataMessage
      else .dashboard dfF

/-- Result of the date-range stage: either the filtered rows, or the
`ValueError` that Python's tuple unpacking on line 66 of `app.py`
(`start_date, end_date = selected_date_range`) raises when the widget's
value is not a pair. -/
inductive DateRangeResult
  | ok (rows : List NormRecord)
  | valueError
deriving DecidableEq, Repr

/-- Lines 64-72 of `app.py`: `st.date_input` hands back the endpoints the
user has picked so far (a one-element tuple while only one endpoint is
supplied); line 66 unpacks exactly two, raising `ValueError` otherwise, and
the mask of lines 67-72 is applied only in the two-endpoint case. -/
def applyDateFilter (df : List NormRecord) (colleges years : List String)
    (range : List Int) : DateRangeResult :=
  match range with
  | [s, e] => .ok (df_filtered df ⟨colleges, years, s, e⟩)
  | _ => .valueError

/-- Python's `str.split(sep)` with an explicit one-character separator, on the
character list of a string: never returns the empty list; splitting the empty
string yields `[[]]` (pandas `"".split(';') == ['']`). -/
def splitOnChar (c : Char) : List Char → List (List Char)
  | [] => [[]]
  | x :: xs =>
    match splitOnChar c xs with
    | [] => [[x]]
    | y :: ys => if x = c then [] :: y :: ys else (x :: y) :: ys

/-- Python's `s.split(c)` for a one-character separator `c`. -/
def pySplit (s : String) (c : Char) : List String :=
  (splitOnChar c s.data).map List.asString

/-- Python's `str.strip()`: drop whitespace from both ends. -/
def pyStrip (s : String) : String :=
  (((s.data.dropWhile Char.isWhitespace).reverse.dropWhile Char.isWhitespace).reverse).asString

/-- Lines 142-145 of `app.py`: drop rows with a missing `Registered Events`
cell, split the cell on `';'`, `explode` one row per event name, and strip
whitespace from each name.  An Exploded Event Entry is the pair of the parent
row and the single event name. -/
def explodeEvents (df : List NormRecord) : List (NormRecord × String) :=
  (df.filter (fun r => r.registeredEvents.isSome)).flatMap (fun r =>
    (pySplit (r.registeredEvents.getD "") ';').map (fun ev => (r, pyStrip ev)))

/-- Line 81 of `app.py`: `df_filtered.dropna(subset=['First Name',
'College Name', 'Gender'])`. -/
def df_completed (df : List NormRecord) : List NormRecord :=
  df.filter (fun r => r.firstName.isSome && r.collegeName.isSome && r.gender.isSome)

/-- The distinct values of a column in order of first appearance (the key
order of pandas' counting hash table). -/
def firstSeenKeys (xs : List String) : List String :=
  xs.foldl (fun acc x => if acc.contains x then acc else acc ++ [x]) []

/-- Descending-count order on `(value, count)` pairs. -/
def countGe (a b : String × Nat) : Prop :=
  b.2 ≤ a.2

instance : DecidableRel countGe := fun a b => inferInstanceAs (Decidable (b.2 ≤ a.2))

instance : IsTotal (String × Nat) countGe := ⟨fun a b => le_total b.2 a.2⟩

instance : IsTrans (String × Nat) countGe := ⟨fun _ _ _ h1 h2 => le_trans h2 h1⟩

/-- Pandas `series.value_counts()` (with its default `dropna=True` applied by
the callers below via `filterMap`): one `(value, count)` pair per distinct
value, ordered by descending count; ties keep first-seen order (the spec's
assumed deterministic tie-break), realized here by a stable sort. -/
def valueCounts (xs : List String) : List (String × Nat) :=
  List.insertionSort countGe ((firstSeenKeys xs).map (fun k => (k, xs.count k)))

/-- Lines 116-117 of `app.py`: `df_completed['College Name'].value_counts()
.nlargest(10)`. -/
def college_counts (df : List NormRecord) : List (String × Nat) :=
  (valueCounts ((df_completed df).filterMap (fun r => r.collegeName))).take 10

/-- Lines 133-134 of `app.py`: `df_completed['Degree'].value_counts()
.nlargest(10)`. -/
def degree_counts (df : List NormRecord) : List (String × Nat) :=
  (valueCounts ((df_completed df).filterMap (fun r => r.degree))).take 10

/-- Lines 220-222 of `app.py`: restrict the exploded entries to the selected
event, then `['College Name'].value_counts().nlargest(10)`. -/
def college_interest (df : List NormRecord) (ev : String) : List (String × Nat) :=
  (valueCounts (((explodeEvents df).filter (fun p => p.2 == ev)).filterMap
    (fun p => p.1.collegeName))).take 10

/-- Pandas `series.mode()`: the values attaining the maximal count, sorted
ascending.  On an empty series it is empty, so `mode()[0]` raises `KeyError`. -/
def seriesMode (xs : List String) : List String :=
  let vc := (firstSeenKeys xs).map (fun k => (k, xs.count k))
  let m := vc.foldl (fun a p => max a p.2) 0
  List.insertionSort (fun a b : String => a ≤ b)
    ((vc.filter (fun p => p.2 == m)).map (fun p => p.1))

/-- Line 85 of `app.py`: `df_completed['College Name'].mode()[0]` paired with
`df_completed['College Name'].value_counts().iloc[0]`.  Both indexings are
partial: on an empty completed-profile subset they raise (`KeyError` /
`IndexError`), modelled as `none`; there is no surrounding `try`, so `none`
is an uncaught exception, not a rendered message. -/
def topCollegeMetric (df : List NormRecord) : Option (String × Nat) :=
  let names := (df_completed df).filterMap (fun r => r.collegeName)
  match (seriesMode names).head?, ((valueCounts names).head?).map (fun p => p.2) with
  | some m, some c => some (m, c)
  | _, _ => none

/-- Observable result of one call `preprocess_data(df)`: the returned table
together with the state of the caller's argument object after the call.  The
function body assigns columns on `df` and drops rows with
`inplace=True`, so when it returns `df` the argument object IS the returned
table; `argAfter` records that. -/
structure PreprocessCall where
  ret : List NormRecord
  argAfter : List NormRecord
deriving DecidableEq, Repr

/-- One call to `preprocess_data` (lines 14-23 of `app.py`) viewed with its
side effect on the argument. -/
def preprocess_call (P : Parsers) (df : List RawRecord) : PreprocessCall :=
  { ret := preprocess_data P df
    argAfter := preprocess_data P df }

/-- A CSV file at the structural level pandas presents it: a header row of
column names followed by one row of cells per record.  A cell is the textual
content of one comma-separated field (quoting/escaping of separators is the
byte-level layer handled by the CSV library and not modelled). -/
abbrev CsvTable := List (List String)

/-- Reading one cell on ingestion: `pd.read_csv` turns an empty field into a
missing value and keeps any other text. -/
def fieldOfCell (s : String) : Option String :=
  if s = "" then none else some s

/-- Name-based column access on one parsed row, as `pd.read_csv` provides it:
find the cell under the given header name, missing if the column is absent. -/
def lookupCell : List String → List String → String → Option String
  | h :: hs, c :: cs, col => if h = col then fieldOfCell c else lookupCell hs cs col
  | _, _, _ => none

/-- One row of an uploaded CSV read back into the columns the dashboard uses
(lines 42-48 of `app.py`, after decoding and header cleanup). -/
def reparseRow (header cells : List String) : RawRecord :=
  { createdAt := lookupCell header cells "Created At"
    yearOfStudy := lookupCell header cells "Year of Study"
    collegeName := lookupCell header cells "College Name"
    gender := lookupCell header cells "Gender"
    degree := lookupCell header cells "Degree"
    firstName := lookupCell header cells "First Name"
    registeredEvents := lookupCell header cells "Registered Events"
    teams := lookupCell header cells "Teams" }

/-- Ingestion of a CSV table: the first row is the header, every following
row becomes a `RawRecord` by name-based column lookup. -/
def ingestTable : CsvTable → List RawRecord
  | [] => []
  | header :: rows => rows.map (reparseRow header)

/-- The textual rendering of a normalized datetime cell on export (its exact
format is the formatting layer; only that it is some non-empty text matters). -/
def showTimestamp (t : Timestamp) : String :=
  toString t.day ++ "T" ++ toString t.timeOfDay

/-- The textual rendering of a `Registration Date` cell on export. -/
def showDate (d : Int) : String :=
  toString d

/-- Writing one cell on export: `to_csv` writes a missing value as an empty
field and any string as its text. -/
def cellOf : Option String → String
  | some s => s
  | none => ""

/-- The header `to_csv` writes for the dashboard's dataframe: the uploaded
columns in order followed by the two derived columns, and no index column. -/
def csvHeader : List String :=
  ["Created At", "Year of Study", "College Name", "Gender", "Degree",
   "First Name", "Registered Events", "Teams", "Registration Date",
   "Year of Study Cleaned"]

/-- The data cells `to_csv` writes for one filtered record: exactly the ten
columns of `csvHeader`, no index cell. -/
def rowCells (r : NormRecord) : List String :=
  [(r.createdAt.map showTimestamp).getD "",
   cellOf r.yearOfStudy, cellOf r.collegeName, cellOf r.gender, cellOf r.degree,
   cellOf r.firstName, cellOf r.registeredEvents, cellOf r.teams,
   (r.registrationDate.map showDate).getD "",
   cellOf r.yearLabel]

/-- Lines 28-30 of `app.py`: `df.to_csv(index=False).encode('utf-8')` at the
structural level: a header row followed by the data rows, no index column. -/
def to_csv (df : List NormRecord) : CsvTable :=
  csvHeader :: df.map rowCells

/-- The raw record that re-ingesting an exported filtered row yields: every
original column unchanged, and the coerced `Created At` column as its
re-formatted text. -/
def roundRaw (r : NormRecord) : RawRecord :=
  { createdAt := r.createdAt.map showTimestamp
    yearOfStudy := r.yearOfStudy
    collegeName := r.collegeName
    gender := r.gender
    degree := r.degree
    firstName := r.firstName
    registeredEvents := r.registeredEvents
    teams := r.teams }

/-- Numeric value of one decimal digit character. -/
def digitVal (c : Char) : Option Nat :=
  if '0' ≤ c ∧ c ≤ '9' then some (c.toNat - '0'.toNat) else none

/-- Parse a non-empty all-decimal character list as a natural number. -/
def digitsToNat : List Char → Option Nat
  | [] => none
  | l => l.foldl (fun acc c => acc.bind (fun a => (digitVal c).map (fun d => 10 * a + d))) (some 0)

/-- A concrete instantiation of the two library parsers used to evaluate the
theorems on concrete inputs: a cell parses as a datetime (with midnight
time-of-day) or as a number exactly when it is a string of decimal digits. -/
def P0 : Parsers :=
  { toDatetime := fun s => (digitsToNat s.data).map (fun n => ⟨(n : Int), 0⟩)
    toNumeric := fun s => (digitsToNat s.data).map (fun n => (n : Rat)) }

/-- A raw registration row all of whose cells parse. -/
def raw0 : RawRecord :=
  { createdAt := some "1"
    yearOfStudy := some "2"
    collegeName := some "Alpha College"
    gender := some "F"
    degree := some "BSc"
    firstName := some "Asha"
    registeredEvents := some "Hack;Quiz"
    teams := some "T1" }

/-- `raw0` with an unparseable timestamp cell. -/
def rawBad : RawRecord :=
  { raw0 with createdAt := some "x" }

/-- A concrete normalized record (the normalization of `raw0` under `P0`). -/
def nr0 : NormRecord :=
  { createdAt := some ⟨1, 0⟩
    yearOfStudy := some "2"
    registrationDate := some 1
    yearNum := some 2
    yearLabel := some "2"
    collegeName := some "Alpha College"
    gender := some "F"
    degree := some "BSc"
    firstName := some "Asha"
    registeredEvents := some "Hack;Quiz"
    teams := some "T1" }

/-- A Filter Selection that matches nothing. -/
def selNone : FilterSel :=
  ⟨[], [], 0, 0⟩

/-- A Filter Selection that matches `nr0`. -/
def selAll : FilterSel :=
  ⟨["Alpha College"], ["2"], 0, 5⟩

/-- The header row of the concrete uploaded CSV used by the witnesses. -/
def uploadHeader : List String :=
  ["Created At", "Year of Study", "College Name", "Gender", "Degree",
   "First Name", "Registered Events", "Teams"]

/-- A concrete uploaded CSV table whose single data row ingests to `raw0`. -/
def t0 : CsvTable :=
  [uploadHeader, ["1", "2", "Alpha College", "F", "BSc", "Asha", "Hack;Quiz", "T1"]]

/-- `nr0` with an empty-string `Registered Events` cell. -/
def nrEmptyEvents : NormRecord :=
  { nr0 with registeredEvents := some "" }

/-- `nr0` with a missing `Registered Events` cell. -/
def nrNoEvents : NormRecord :=
  { nr0 with registeredEvents := none }

/-- `nr0` with a missing `Gender` cell (an incomplete profile). -/
def nrNoGender : NormRecord :=
  { nr0 with gender := none }

/-- No text field of a raw row is the empty string — exactly what ingestion
guarantees, since `pd.read_csv` turns an empty field into a missing value. -/
def RawClean (r : RawRecord) : Prop :=
  r.createdAt ≠ some "" ∧ r.yearOfStudy ≠ some "" ∧ r.collegeName ≠ some "" ∧
  r.gender ≠ some "" ∧ r.degree ≠ some "" ∧ r.firstName ≠ some "" ∧
  r.registeredEvents ≠ some "" ∧ r.teams ≠ some ""

/-- No text field of a normalized row is the empty string (the year label is
an integer rendering, so it is never empty either). -/
def NormClean (r : NormRecord) : Prop :=
  r.yearOfStudy ≠ some "" ∧ r.collegeName ≠ some "" ∧ r.gender ≠ some "" ∧
  r.degree ≠ some "" ∧ r.firstName ≠ some "" ∧ r.registeredEvents ≠ some "" ∧
  r.teams ≠ some "" ∧ ∀ s, r.yearLabel = some s → s ≠ ""

theorem preprocess_data_nil (P : Parsers) : preprocess_data P [] = [] := rfl

theorem preprocess_data_cons (P : Parsers) (r : RawRecord) (t : List RawRecord) :
    preprocess_data P (r :: t) =
      (if fullyParses P r then [normOf P r] else []) ++ preprocess_data P t := by
  rcases hc : r.createdAt.bind P.toDatetime with _ | ts <;>
    rcases hy : r.yearOfStudy.bind P.toNumeric with _ | q <;>
      simp [preprocess_data, fullyParses, normOf, parseCreatedRow, deriveDateRow,
        parseYearRow, labelYearRow, hc, hy, List.filter_cons]

/-- Characterization of `preprocess_data`: its output is exactly the fully
parsing raw rows, each replaced by its normalized record.  Rows failing
either parse are removed, not kept with a missing field. -/
theorem preprocess_data_eq (P : Parsers) (df : List RawRecord) :
    preprocess_data P df = (df.filter (fullyParses P)).map (normOf P) := by
  induction df with
  | nil => rfl
  | cons r t ih =>
    rw [preprocess_data_cons, ih, List.filter_cons]
    by_cases h : fullyParses P r <;> simp [h]

theorem isinOpt_eq_true {xs : List String} {o : Option String} :
    isinOpt xs o = true ↔ ∃ v, o = some v ∧ v ∈ xs := by
  cases o <;> simp [isinOpt, List.contains, List.elem_iff]

theorem dateGe_eq_true {o : Option Int} {s : Int} :
    dateGe o s = true ↔ ∃ d, o = some d ∧ s ≤ d := by
  cases o <;> simp [dateGe]

theorem dateLe_eq_true {o : Option Int} {e : Int} :
    dateLe o e = true ↔ ∃ d, o = some d ∧ d ≤ e := by
  cases o <;> simp [dateLe]

/-- Membership characterization of the filter mask of lines 67-72: a record
passes iff it is in the input and satisfies the three predicates, both date
bounds inclusive. -/
theorem mem_df_filtered {df : List NormRecord} {sel : FilterSel} {r : NormRecord} :
    r ∈ df_filtered df sel ↔
      r ∈ df ∧ (∃ c, r.collegeName = some c ∧ c ∈ sel.colleges) ∧
        (∃ y, r.yearLabel = some y ∧ y ∈ sel.years) ∧
        (∃ d, r.registrationDate = some d ∧ sel.startDate ≤ d ∧ d ≤ sel.endDate) := by
  rcases h : r.registrationDate with _ | d <;>
    simp [df_filtered, List.mem_filter, isinOpt_eq_true, dateGe_eq_true,
      dateLe_eq_true, h, and_assoc]

theorem toDigitsCore_length_le (b : Nat) :
    ∀ (fuel n : Nat) (ds : List Char), ds.length ≤ (Nat.toDigitsCore b fuel n ds).length
  | 0, _, _ => le_refl _
  | fuel + 1, n, ds => by
    simp only [Nat.toDigitsCore]
    split
    · simp
    · exact le_trans (by simp) (toDigitsCore_length_le b fuel (n / b) _)

theorem one_le_length_toDigits (b n : Nat) : 1 ≤ (Nat.toDigits b n).length := by
  unfold Nat.toDigits
  simp only [Nat.toDigitsCore]
  split
  · simp
  · exact le_trans (by simp) (toDigitsCore_length_le b n (n / b) _)

theorem natRepr_ne_empty (n : Nat) : Nat.repr n ≠ "" := by
  intro h
  have h1 : 1 ≤ (Nat.repr n).length := one_le_length_toDigits 10 n
  rw [h] at h1
  simp at h1

theorem int_toString_ne_empty (n : Int) : toString n ≠ "" := by
  cases n with
  | ofNat m => exact natRepr_ne_empty m
  | negSucc m =>
    intro h
    have h1 : (toString (Int.negSucc m)).length =
        ("-" : String).length + (toString (m + 1)).length := String.length_append _ _
    rw [h] at h1
    have h2 : 1 ≤ (toString (m + 1) : String).length := one_le_length_toDigits 10 (m + 1)
    have h3 : ("" : String).length = 0 := rfl
    have h4 : ("-" : String).length = 1 := rfl
    rw [h3, h4] at h1
    omega

theorem length_filter_lt_of_mem {α : Type} {l : List α} {p : α → Bool} {a : α}
    (ha : a ∈ l) (hp : p a = false) : (l.filter p).length < l.length := by
  induction l with
  | nil => cases ha
  | cons x t ih =>
    rw [List.filter_cons]
    rcases List.mem_cons.mp ha with rfl | hat
    · rw [hp]
      exact Nat.lt_succ_of_le (List.length_filter_le p t)
    · by_cases hx : p x
      · simpa [hx] using Nat.succ_lt_succ (ih hat)
      · simp only [hx, if_neg, Bool.false_eq_true, not_false_eq_true, List.length_cons]
        exact Nat.lt_succ_of_lt (ih hat)

theorem showDate_ne_empty (d : Int) : showDate d ≠ "" :=
  int_toString_ne_empty d

theorem showTimestamp_ne_empty (t : Timestamp) : showTimestamp t ≠ "" := by
  intro h
  have h1 : (showTimestamp t).length =
      (toString t.day ++ "T").length + (toString t.timeOfDay).length :=
    String.length_append _ _
  have h2 : (toString t.day ++ "T").length = (toString t.day).length + 1 :=
    String.length_append _ _
  rw [h] at h1
  have h3 : ("" : String).length = 0 := rfl
  rw [h3] at h1
  omega

theorem fieldOfCell_cellOf {o : Option String} (h : o ≠ some "") :
    fieldOfCell (cellOf o) = o := by
  cases o with
  | none => rfl
  | some s =>
    have hs : s ≠ "" := fun he => h (by rw [he])
    simp [fieldOfCell, cellOf, hs]

theorem lookupCell_ne_some_empty :
    ∀ (hs cs : List String) (col : String), lookupCell hs cs col ≠ some "" := by
  intro hs
  induction hs with
  | nil => intro cs col; cases cs <;> simp [lookupCell]
  | cons h t ih =>
    intro cs col
    cases cs with
    | nil => simp [lookupCell]
    | cons c cs' =>
      rw [lookupCell]
      by_cases hc : h = col
      · rw [if_pos hc]
        unfold fieldOfCell
        by_cases hce : c = ""
        · simp [hce]
        · simp [hce]
      · rw [if_neg hc]
        exact ih cs' col

theorem ingestTable_clean {t : CsvTable} {r : RawRecord}
    (hr : r ∈ ingestTable t) : RawClean r := by
  cases t with
  | nil => cases hr
  | cons header rows =>
    rcases List.mem_map.mp hr with ⟨cells, _, rfl⟩
    exact ⟨lookupCell_ne_some_empty _ _ _, lookupCell_ne_some_empty _ _ _,
      lookupCell_ne_some_empty _ _ _, lookupCell_ne_some_empty _ _ _,
      lookupCell_ne_some_empty _ _ _, lookupCell_ne_some_empty _ _ _,
      lookupCell_ne_some_empty _ _ _, lookupCell_ne_some_empty _ _ _⟩

theorem normOf_clean {P : Parsers} {r : RawRecord} (h : RawClean r) :
    NormClean (normOf P r) := by
  obtain ⟨-, h2, h3, h4, h5, h6, h7, h8⟩ := h
  refine ⟨h2, h3, h4, h5, h6, h7, h8, ?_⟩
  intro s hs
  rcases hq : r.yearOfStudy.bind P.toNumeric with _ | q
  · rw [normOf] at hs
    simp only [hq, Option.map_none'] at hs
    exact Option.noConfusion hs
  · rw [normOf] at hs
    simp only [hq, Option.map_some', Option.some.injEq] at hs
    rw [← hs]
    exact int_toString_ne_empty _

theorem preprocess_clean {P : Parsers} {t : CsvTable} {r : NormRecord}
    (hr : r ∈ preprocess_data P (ingestTable t)) : NormClean r := by
  rw [preprocess_data_eq] at hr
  rcases List.mem_map.mp hr with ⟨rr, hrr, rfl⟩
  exact normOf_clean (ingestTable_clean (List.mem_filter.mp hrr).1)

theorem reparse_rowCells {r : NormRecord} (h : NormClean r) :
    reparseRow csvHeader (rowCells r) = roundRaw r := by
  obtain ⟨h1, h2, h3, h4, h5, h6, h7, -⟩ := h
  have e : reparseRow csvHeader (rowCells r) =
      { createdAt := fieldOfCell ((r.createdAt.map showTimestamp).getD "")
        yearOfStudy := fieldOfCell (cellOf r.yearOfStudy)
        collegeName := fieldOfCell (cellOf r.collegeName)
        gender := fieldOfCell (cellOf r.gender)
        degree := fieldOfCell (cellOf r.degree)
        firstName := fieldOfCell (cellOf r.firstName)
        registeredEvents := fieldOfCell (cellOf r.registeredEvents)
        teams := fieldOfCell (cellOf r.teams) } := rfl
  have ec : fieldOfCell ((r.createdAt.map showTimestamp).getD "") =
      r.createdAt.map showTimestamp := by
    cases r.createdAt with
    | none => rfl
    | some ts =>
      simp [fieldOfCell, showTimestamp_ne_empty ts]
  rw [e, roundRaw, ec, fieldOfCell_cellOf h1, fieldOfCell_cellOf h2,
    fieldOfCell_cellOf h3, fieldOfCell_cellOf h4, fieldOfCell_cellOf h5,
    fieldOfCell_cellOf h6, fieldOfCell_cellOf h7]

theorem lookup_yearLabel {r : NormRecord} (h : NormClean r) :
    lookupCell csvHeader (rowCells r) "Year of Study Cleaned" = r.yearLabel := by
  have e : lookupCell csvHeader (rowCells r) "Year of Study Cleaned" =
      fieldOfCell (cellOf r.yearLabel) := rfl
  rw [e]
  cases hy : r.yearLabel with
  | none => rfl
  | some s =>
    have hs : s ≠ "" := h.2.2.2.2.2.2.2 s hy
    simp [fieldOfCell, cellOf, hs]

theorem lookup_registrationDate (r : NormRecord) :
    lookupCell csvHeader (rowCells r) "Registration Date" =
      r.registrationDate.map showDate := by
  have e : lookupCell csvHeader (rowCells r) "Registration Date" =
      fieldOfCell ((r.registrationDate.map showDate).getD "") := rfl
  rw [e]
  cases r.registrationDate with
  | none => rfl
  | some d =>
    simp [fieldOfCell, showDate_ne_empty d]

theorem preprocess_P0_raw0 : preprocess_data P0 [raw0] = [nr0] := by decide

theorem nr0_mem_preprocess : nr0 ∈ preprocess_data P0 [raw0] := by
  rw [preprocess_P0_raw0]
  exact List.mem_singleton.mpr rfl

/-- C1: every record output by normalization (`preprocess_data`) has a
non-null calendar date and a non-null cleaned year label, and any row whose
timestamp or year-of-study fails to parse is removed from the output
entirely (the output is exactly the image of the fully parsing rows) rather
than kept with a null field. -/
theorem preprocess_output_fully_derived (P : Parsers) (df : List RawRecord) :
    (∀ rec ∈ preprocess_data P df,
        rec.registrationDate.isSome = true ∧ rec.yearLabel.isSome = true) ∧
    preprocess_data P df = (df.filter (fullyParses P)).map (normOf P) := by
  refine ⟨?_, preprocess_data_eq P df⟩
  intro rec hrec
  rw [preprocess_data_eq] at hrec
  rcases List.mem_map.mp hrec with ⟨r, hr, rfl⟩
  have hf := (List.mem_filter.mp hr).2
  rw [fullyParses, Bool.and_eq_true] at hf
  rcases Option.isSome_iff_exists.mp hf.1 with ⟨ts, hts⟩
  rcases Option.isSome_iff_exists.mp hf.2 with ⟨q, hq⟩
  constructor
  · simp [normOf, hts]
  · simp [normOf, hq]

/-- Witness for C1 at the concrete input `[raw0]` under the parsers `P0`. -/
theorem preprocess_output_fully_derived_witness :
    nr0.registrationDate.isSome = true ∧ nr0.yearLabel.isSome = true :=
  (preprocess_output_fully_derived P0 [raw0]).1 nr0 nr0_mem_preprocess

/-- C2: for every normalized record set and Filter Selection, the filter
output is exactly the subset of records whose college name is in the
selected college set, whose cleaned year label is in the selected year set,
and whose calendar date lies within the selected range, both bounds
inclusive. -/
theorem df_filtered_exact_subset (df : List NormRecord) (sel : FilterSel)
    (r : NormRecord) :
    r ∈ df_filtered df sel ↔
      r ∈ df ∧ (∃ c, r.collegeName = some c ∧ c ∈ sel.colleges) ∧
        (∃ y, r.yearLabel = some y ∧ y ∈ sel.years) ∧
        (∃ d, r.registrationDate = some d ∧ sel.startDate ≤ d ∧ d ≤ sel.endDate) :=
  mem_df_filtered

/-- C3: a raised parse exception is reported as the user-visible message of
line 54, whose text includes the underlying cause; a parsed table with no
rows is reported as the user-visible empty-input message of line 50; an
empty filter result is reported with the distinct non-error outcome of
line 75 (`st.warning`), different from both error reports. -/
theorem pipeline_reports_errors :
    (∀ (e : String) (P : Parsers) (sel : FilterSel),
        runPipeline (.error e) P sel = .parseError (parseErrorMessageStem ++ e)) ∧
    (∀ (P : Parsers) (sel : FilterSel),
        runPipeline (.ok []) P sel = .emptyInput emptyInputMessage) ∧
    (∀ (P : Parsers) (sel : FilterSel) (raw : List RawRecord), raw ≠ [] →
        df_filtered (preprocess_data P raw) sel = [] →
        runPipeline (.ok raw) P sel = .noMatchingData noMatchingDataMessage) ∧
    (∀ m m' : String,
        Outcome.noMatchingData m ≠ Outcome.parseError m' ∧
        Outcome.noMatchingData m ≠ Outcome.emptyInput m') := by
  refine ⟨fun e P sel => rfl, fun P sel => rfl, ?_, ?_⟩
  · intro P sel raw hne hempty
    simp [runPipeline, List.isEmpty_iff, hne, hempty]
  · intro m m'
    exact ⟨fun h => Outcome.noConfusion h, fun h => Outcome.noConfusion h⟩

/-- Witness for C3's conditional conjunct at a concrete non-empty raw table
whose filter result is empty. -/
theorem pipeline_reports_errors_witness :
    runPipeline (.ok [raw0]) P0 selNone = .noMatchingData noMatchingDataMessage :=
  pipeline_reports_errors.2.2.1 P0 selNone [raw0] (by decide)
    (by rw [preprocess_P0_raw0]; decide)

/-- C4 counterexample: with one normalized record dated day 1 and a
single-endpoint date selection `[1]`, the unpacking on line 66 yields
`ValueError` — no subset is produced — even though the exact-date subset for
day 1 is the non-empty `[nr0]`.  This refutes the claim that a one-endpoint
selection is treated as that exact date. -/
theorem single_endpoint_counterexample :
    applyDateFilter [nr0] ["Alpha College"] ["2"] [1] = .valueError ∧
    df_filtered [nr0] ⟨["Alpha College"], ["2"], 1, 1⟩ = [nr0] :=
  ⟨rfl, by decide⟩

/-- C4 amended: when the selected range carries BOTH endpoints and they are
equal, the filter treats it as that exact date, inclusive on both bounds,
and produces the corresponding subset; when only one endpoint (or any
number of endpoints other than two) is supplied, the tuple unpacking of
line 66 raises `ValueError` instead of filtering. -/
theorem collapsed_range_amended (df : List NormRecord) (cs ys : List String)
    (d : Int) :
    applyDateFilter df cs ys [d, d] = .ok (df_filtered df ⟨cs, ys, d, d⟩) ∧
    (∀ r, r ∈ df_filtered df ⟨cs, ys, d, d⟩ ↔
      r ∈ df ∧ (∃ c, r.collegeName = some c ∧ c ∈ cs) ∧
        (∃ y, r.yearLabel = some y ∧ y ∈ ys) ∧ r.registrationDate = some d) ∧
    (∀ range : List Int, range.length ≠ 2 →
      applyDateFilter df cs ys range = .valueError) := by
  refine ⟨rfl, ?_, ?_⟩
  · intro r
    rw [mem_df_filtered]
    constructor
    · rintro ⟨h1, h2, h3, ⟨dd, hdd, hge, hle⟩⟩
      refine ⟨h1, h2, h3, ?_⟩
      rw [hdd]
      exact congrArg some (le_antisymm hle hge)
    · rintro ⟨h1, h2, h3, h4⟩
      exact ⟨h1, h2, h3, ⟨d, h4, le_refl d, le_refl d⟩⟩
  · intro range hr
    match range with
    | [] => rfl
    | [_] => rfl
    | [_, _] => exact absurd rfl hr
    | _ :: _ :: _ :: _ => rfl

/-- Witness for C4's amended claim: both endpoints equal produces the
exact-date subset; a one-endpoint selection yields `ValueError`. -/
theorem collapsed_range_amended_witness :
    applyDateFilter [nr0] ["Alpha College"] ["2"] [1, 1] =
      .ok (df_filtered [nr0] ⟨["Alpha College"], ["2"], 1, 1⟩) ∧
    applyDateFilter [nr0] ["Alpha College"] ["2"] [1] = .valueError :=
  ⟨(collapsed_range_amended [nr0] ["Alpha College"] ["2"] 1).1,
   (collapsed_range_amended [nr0] ["Alpha College"] ["2"] 1).2.2 [1] (by decide)⟩

/-- C5 counterexample: a record whose `Registered Events` cell is the EMPTY
STRING contributes one Exploded Event Entry (with the empty string as the
event name), not zero, because `''.split(';')` yields `['']`.  This refutes
the claim for the empty-string case. -/
theorem empty_string_events_counterexample :
    explodeEvents [nrEmptyEvents] = [(nrEmptyEvents, "")] ∧
    (explodeEvents [nrEmptyEvents]).length = 1 :=
  ⟨by decide, by decide⟩

/-- C5 amended: a record whose `Registered Events` cell is MISSING
contributes zero Exploded Event Entries; a record whose cell is the empty
string contributes exactly one entry, whose event name is the empty
string. -/
theorem explode_missing_empty_amended (dfa dfb : List NormRecord)
    (r : NormRecord) :
    (r.registeredEvents = none →
      explodeEvents (dfa ++ r :: dfb) = explodeEvents (dfa ++ dfb)) ∧
    (r.registeredEvents = some "" →
      explodeEvents (dfa ++ r :: dfb) =
        explodeEvents dfa ++ (r, "") :: explodeEvents dfb) := by
  constructor
  · intro h
    simp [explodeEvents, List.filter_append, List.filter_cons, h]
  · intro h
    have hsplit : pySplit "" ';' = [""] := rfl
    have hstrip : pyStrip "" = "" := rfl
    simp [explodeEvents, List.filter_append, List.filter_cons, h,
      List.flatMap_append, hsplit, hstrip]

/-- Witness for C5's amended claim at concrete one-record tables. -/
theorem explode_missing_empty_amended_witness :
    explodeEvents ([] ++ nrNoEvents :: []) = explodeEvents ([] ++ []) ∧
    explodeEvents ([] ++ nrEmptyEvents :: []) =
      explodeEvents [] ++ (nrEmptyEvents, "") :: explodeEvents [] :=
  ⟨(explode_missing_empty_amended [] [] nrNoEvents).1 rfl,
   (explode_missing_empty_amended [] [] nrEmptyEvents).2 rfl⟩

/-- C6: normalization coerces the year-of-study column numerically and drops
every row whose value is non-numeric or missing rather than defaulting or
coercing it to zero (the output is exactly the image of the fully parsing
rows), and every retained record's cleaned year label is the rendering of an
integer (`astype(int).astype(str)`), hence has no decimal point. -/
theorem year_cleaning_integer_label (P : Parsers) (df : List RawRecord) :
    (∀ rec ∈ preprocess_data P df, ∃ n : Int, rec.yearLabel = some (toString n)) ∧
    preprocess_data P df = (df.filter (fullyParses P)).map (normOf P) := by
  refine ⟨?_, preprocess_data_eq P df⟩
  intro rec hrec
  rw [preprocess_data_eq] at hrec
  rcases List.mem_map.mp hrec with ⟨r, hr, rfl⟩
  have hf := (List.mem_filter.mp hr).2
  rw [fullyParses, Bool.and_eq_true] at hf
  rcases Option.isSome_iff_exists.mp hf.2 with ⟨q, hq⟩
  exact ⟨ratTrunc q, by simp [normOf, hq]⟩

/-- Witness for C6 at the concrete input `[raw0]` under the parsers `P0`. -/
theorem year_cleaning_integer_label_witness :
    ∃ n : Int, nr0.yearLabel = some (toString n) :=
  (year_cleaning_integer_label P0 [raw0]).1 nr0 nr0_mem_preprocess

/-- C7 counterexample: `preprocess_data` does NOT leave the table passed to
it unmodified.  Its column assignments and `dropna(..., inplace=True)` act
on the argument object itself, so after calling it on the one-row table
`[rawBad]` (whose timestamp cell does not parse) the argument holds 0 rows
where it held 1 before the call. -/
theorem preprocess_mutation_counterexample :
    ((preprocess_call P0 [rawBad]).argAfter).length = 0 ∧
    ([rawBad] : List RawRecord).length = 1 :=
  ⟨by decide, rfl⟩

/-- C7 amended: `preprocess_data` is deterministic (same input, same
output — it is modelled as a function of its input), but it is not
side-effect-free: the in-place operations leave the argument object equal to
the returned table, so whenever some input row fails a parse the argument
afterwards has strictly fewer rows than were passed in.  The call site
compensates by passing a copy (`df_raw.copy()`, line 52). -/
theorem preprocess_mutates_argument (P : Parsers) (df : List RawRecord) :
    (preprocess_call P df).argAfter = (preprocess_call P df).ret ∧
    (∀ r ∈ df, fullyParses P r = false →
      ((preprocess_call P df).argAfter).length < df.length) := by
  refine ⟨rfl, ?_⟩
  intro r hr hp
  show (preprocess_data P df).length < df.length
  rw [preprocess_data_eq, List.length_map]
  exact length_filter_lt_of_mem hr hp

/-- Witness for C7's amended claim on the concrete table `[rawBad]`. -/
theorem preprocess_mutates_argument_witness :
    ((preprocess_call P0 [rawBad]).argAfter).length <
      ([rawBad] : List RawRecord).length :=
  (preprocess_mutates_argument P0 [rawBad]).2 rawBad
    (List.mem_singleton.mpr rfl) (by decide)

theorem valueCounts_sorted (xs : List String) :
    (valueCounts xs).Pairwise countGe :=
  List.sorted_insertionSort countGe _

theorem take_ten_length {α : Type} (l : List α) : (l.take 10).length ≤ 10 := by
  rw [List.length_take]
  omega

/-- C8: each top-N view (top colleges, top degrees, drill-down top colleges
per event) returns at most 10 entries, sorted descending by count; ties keep
the deterministic first-seen order of the stable sort in `valueCounts`, and
each view is a pure function of its input, so the output is reproducible
across runs on identical input. -/
theorem topN_at_most_ten_sorted (df : List NormRecord) (ev : String) :
    ((college_counts df).length ≤ 10 ∧ (college_counts df).Pairwise countGe) ∧
    ((degree_counts df).length ≤ 10 ∧ (degree_counts df).Pairwise countGe) ∧
    ((college_interest df ev).length ≤ 10 ∧
      (college_interest df ev).Pairwise countGe) :=
  ⟨⟨take_ten_length _, (valueCounts_sorted _).sublist (List.take_sublist 10 _)⟩,
   ⟨take_ten_length _, (valueCounts_sorted _).sublist (List.take_sublist 10 _)⟩,
   ⟨take_ten_length _, (valueCounts_sorted _).sublist (List.take_sublist 10 _)⟩⟩

/-- C9: exporting the filtered set with `to_csv` produces the header row
followed by exactly one ten-cell data row per record (no index column), and
re-parsing those cells through Ingestion reproduces the same logical rows on
the shared columns: every original text column round-trips unchanged, the
cleaned year label round-trips unchanged, and the two derived date columns
round-trip up to their textual formatting. -/
theorem export_roundtrip (P : Parsers) (t : CsvTable) (sel : FilterSel) :
    ingestTable (to_csv (df_filtered (preprocess_data P (ingestTable t)) sel)) =
      (df_filtered (preprocess_data P (ingestTable t)) sel).map roundRaw ∧
    (∀ r ∈ df_filtered (preprocess_data P (ingestTable t)) sel,
      (rowCells r).length = csvHeader.length ∧
      lookupCell csvHeader (rowCells r) "Year of Study Cleaned" = r.yearLabel ∧
      lookupCell csvHeader (rowCells r) "Registration Date" =
        r.registrationDate.map showDate) := by
  have hclean : ∀ r ∈ df_filtered (preprocess_data P (ingestTable t)) sel,
      NormClean r := fun r hr => preprocess_clean (List.mem_filter.mp hr).1
  constructor
  · show ((df_filtered (preprocess_data P (ingestTable t)) sel).map
        rowCells).map (reparseRow csvHeader) = _
    rw [List.map_map]
    refine List.map_congr_left ?_
    intro r hr
    exact reparse_rowCells (hclean r hr)
  · intro r hr
    exact ⟨rfl, lookup_yearLabel (hclean r hr), lookup_registrationDate r⟩

/-- Witness for C9's per-row conjunct at the concrete upload `t0`, parsers
`P0` and a selection under which `nr0` survives the filter. -/
theorem export_roundtrip_witness :
    (rowCells nr0).length = csvHeader.length ∧
    lookupCell csvHeader (rowCells nr0) "Year of Study Cleaned" = nr0.yearLabel ∧
    lookupCell csvHeader (rowCells nr0) "Registration Date" =
      nr0.registrationDate.map showDate :=
  (export_roundtrip P0 t0 selAll).2 nr0 (by
    have h1 : ingestTable t0 = [raw0] := by decide
    rw [h1, preprocess_P0_raw0]
    decide)

/-- C10: when the filtered set is non-empty but every filtered row is
missing at least one of First Name, College Name or Gender, the
completed-profile subset is empty and the most-frequent-college computation
of line 85 (`mode()[0]` together with `value_counts().iloc[0]`) raises an
exception (modelled `none`) rather than rendering a metric or a
user-visible message — there is no handler around it. -/
theorem metrics_raise_on_empty_completed (df : List NormRecord) (hne : df ≠ [])
    (hall : ∀ r ∈ df,
      r.firstName = none ∨ r.collegeName = none ∨ r.gender = none) :
    df_completed df = [] ∧ topCollegeMetric df = none := by
  have hc : df_completed df = [] := by
    rw [df_completed, List.filter_eq_nil_iff]
    intro r hr
    rcases hall r hr with h | h | h <;> simp [h]
  refine ⟨hc, ?_⟩
  simp [topCollegeMetric, hc, seriesMode, valueCounts, firstSeenKeys]

/-- Witness for C10 on a concrete non-empty filtered table whose one row
lacks a gender. -/
theorem metrics_raise_on_empty_completed_witness :
    df_completed [nrNoGender] = [] ∧ topCollegeMetric [nrNoGender] = none :=
  metrics_raise_on_empty_completed [nrNoGender] (by decide)
    (fun r hr => by
      rw [List.mem_singleton.mp hr]
      exact Or.inr (Or.inr rfl))

end EventDashboard
